import Mathlib

/-!
Shallow embedding of the ledger core of `src/app.py` ("ふたりの未来投資銀行",
a two-user point-ledger dashboard). The app persists an append-only sequence
of transaction records in a CSV file (`couple_bank.csv`) and recomputes all
displayed aggregates from the full sequence on every render.

Modelling choices:
* A pandas `DataFrame` of ledger rows is a `List TransactionRecord`
  (insertion order = list order, oldest first).
* The backing CSV file is a `FileState`: absent, readable with some rows,
  or present but unreadable (`pd.read_csv` raising).
* `datetime.now()` is nondeterministic, so functions that stamp a record
  take the timestamp string as an explicit parameter.
* Streamlit UI handlers (the earn buttons, the custom forms, the shop
  purchase buttons) become a `step` function on `FileState`; the widget
  constraint `st.number_input(min_value=1)` and the `if submit and desc`
  guard become explicit guards in the corresponding step branches.
-/

namespace LoveFutureBank

/-- One ledger row, with the column layout of `add_entry` in app.py:
Timestamp, User, Type (the Python field is the keyword `Type`, renamed
`Typ` here), Category, Item, Value, Points. -/
structure TransactionRecord where
  Timestamp : String
  User : String
  Typ : String
  Category : String
  Item : String
  Value : Int
  Points : Int
deriving DecidableEq, Repr

/-- One entry of the fixed earn-action menus in `ACTIONS`. -/
structure ActionItem where
  name : String
  points : Int
  type : String
deriving DecidableEq, Repr

/-- `ACTIONS["savings"]["items"]` from app.py. -/
def savings_items : List ActionItem :=
  [⟨"つもり貯金", 100, "saving"⟩, ⟨"外食我慢", 300, "saving"⟩]

/-- `ACTIONS["diet"]["items"]` from app.py. -/
def diet_items : List ActionItem :=
  [⟨"筋トレした", 50, "diet"⟩, ⟨"野菜食べた", 30, "diet"⟩, ⟨"お菓子我慢", 50, "diet"⟩]

/-- One reward ticket of the static `TICKETS` catalog. -/
structure Ticket where
  name : String
  cost : Int
deriving DecidableEq, Repr

/-- The `TICKETS` catalog from app.py. -/
def TICKETS : List Ticket :=
  [⟨"肩揉み10分券", 300⟩, ⟨"皿洗い免除券", 500⟩,
   ⟨"好きな夕飯リクエスト券", 1000⟩, ⟨"週末お出かけプラン決定権", 2000⟩]

/-- State of the backing CSV file `couple_bank.csv`. -/
inductive FileState where
  | absent : FileState
  | readable : List TransactionRecord → FileState
  | unreadable : FileState
deriving DecidableEq, Repr

/-- Error class of the store layer: the backing medium exists but cannot
be read (in app.py, `pd.read_csv` raising an exception). -/
inductive StoreErr where
  | storeUnavailable : StoreErr
deriving DecidableEq, Repr

/-- `pd.read_csv(DATA_FILE)`: succeeds with the stored rows on a readable
file, raises (modelled as `Except.error`) otherwise. Only called by
`load_data` when `os.path.exists(DATA_FILE)` holds. -/
def read_csv : FileState → Except StoreErr (List TransactionRecord)
  | FileState.readable rows => Except.ok rows
  | _ => Except.error StoreErr.storeUnavailable

/-- `load_data` from app.py (lines 37-44): if the file does not exist,
return an empty frame; if it exists, try `pd.read_csv` and on any
exception return an empty frame. It never propagates an error. -/
def load_data : FileState → List TransactionRecord
  | FileState.absent => []
  | fs =>
    match read_csv fs with
    | Except.ok rows => rows
    | Except.error _ => []

/-- `save_data` from app.py: writes the frame as the new file content. -/
def save_data (df : List TransactionRecord) : FileState :=
  FileState.readable df

/-- `add_entry` from app.py (lines 49-61): load the current frame, build
one full record in memory, concat it at the end, save. The timestamp is
passed in (`datetime.now().strftime(...)` in the source). -/
def add_entry (fs : FileState) (user type category item : String)
    (value points : Int) (ts : String) : FileState :=
  save_data (load_data fs ++ [⟨ts, user, type, category, item, value, points⟩])

/-- `get_balance` from app.py (lines 63-68): 0 on an empty frame, else the
sum of `Points` over the rows whose `User` matches. -/
def get_balance (fs : FileState) (user : String) : Int :=
  let df := load_data fs
  if df.isEmpty then 0
  else (((df.filter (fun r => r.User == user)).map (fun r => r.Points)).sum)

/-- `get_global_stats` from app.py (lines 70-81): `(0, 0)` on an empty
frame, else the sum of `Value` over rows with `Category == "saving"` and
the count of rows with `Category == "diet"`. Note: no filter on `Typ`. -/
def get_global_stats (fs : FileState) : Int × Nat :=
  let df := load_data fs
  if df.isEmpty then (0, 0)
  else (((df.filter (fun r => r.Category == "saving")).map (fun r => r.Value)).sum,
        (df.filter (fun r => r.Category == "diet")).length)

/-- The tab2 purchase control for ticket `t` (app.py line 167): the button
is rendered with `disabled=(current_balance < ticket.cost)`. -/
def buy_disabled (fs : FileState) (user : String) (t : Ticket) : Bool :=
  decide (get_balance fs user < t.cost)

/-- The tab2 purchase flow for one ticket (app.py lines 161-173): if the
current balance is below the cost the button is disabled (no click, no
append, the "ポイント不足" caption is shown — reported as `false`); else a
click appends `{user, spend, shop, t.name, 1, -t.cost}` and reports
success. -/
def buy_ticket (fs : FileState) (user : String) (t : Ticket) (ts : String) :
    FileState × Bool :=
  if get_balance fs user < t.cost then (fs, false)
  else (add_entry fs user "spend" "shop" t.name 1 (-t.cost) ts, true)

/-- One user action on the tab1/tab2 UI. Timestamps are carried in the
action since `datetime.now()` is ambient in the source. -/
inductive UIAction where
  | fixedSaving : Fin 2 → String → UIAction
  | customDeposit : Int → String → UIAction
  | fixedDiet : Fin 3 → String → UIAction
  | customDiet : String → Int → String → UIAction
  | buyTicket : Fin 4 → String → UIAction

/-- The effect of one UI action by `user` on the file state, embedding the
tab1 and tab2 handlers of app.py:
* fixed saving button (line 122): `add_entry(user, "earn", "saving",
  item.name, item.points, item.points)` — Value := Points;
* custom deposit form (lines 128-134): `st.number_input(min_value=1)`
  guarantees `1 ≤ amount`, then `add_entry(user, "earn", "saving", "入金",
  amount, amount)`;
* fixed diet button (line 140): `add_entry(user, "earn", "diet",
  item.name, 1, item.points)`;
* custom diet form (lines 146-153): appends only `if submit_diet and
  diet_desc` with `st.number_input(min_value=1)` on the points, i.e. only
  when the description is non-empty and `1 ≤ pt`;
* purchase button (lines 167-171): `buy_ticket`. -/
def step (user : String) (fs : FileState) : UIAction → FileState
  | UIAction.fixedSaving i ts =>
    let it := savings_items.get i
    add_entry fs user "earn" "saving" it.name it.points it.points ts
  | UIAction.customDeposit amount ts =>
    if 1 ≤ amount then add_entry fs user "earn" "saving" "入金" amount amount ts
    else fs
  | UIAction.fixedDiet i ts =>
    let it := diet_items.get i
    add_entry fs user "earn" "diet" it.name 1 it.points ts
  | UIAction.customDiet desc pt ts =>
    if desc ≠ "" ∧ 1 ≤ pt then add_entry fs user "earn" "diet" desc 1 pt ts
    else fs
  | UIAction.buyTicket i ts =>
    (buy_ticket fs user (TICKETS.get i) ts).1

/-- Run a sequence of (acting user, action) pairs from a file state. -/
def run : List (String × UIAction) → FileState → FileState
  | [], fs => fs
  | (u, a) :: rest, fs => run rest (step u fs a)

/-- A sample earn record by 阿部 (a つもり貯金 press), used in witnesses. -/
def recEarnA : TransactionRecord :=
  ⟨"2024-01-01 09:00:00", "阿部", "earn", "saving", "つもり貯金", 100, 100⟩

/-- A sample earn record by 阿部 worth 300 points, used in witnesses. -/
def recEarnA300 : TransactionRecord :=
  ⟨"2024-01-01 09:05:00", "阿部", "earn", "saving", "外食我慢", 300, 300⟩

/-- A hypothetical spend-direction record in category "saving": such a row
never arises from the app's own handlers (its only spend append uses
category "shop"), but the aggregation claims quantify over arbitrary
record sequences. -/
def recSpendSaving : TransactionRecord :=
  ⟨"2024-01-02 10:00:00", "阿部", "spend", "saving", "払い戻し", 500, -500⟩

/-- A hypothetical spend-direction record in category "diet". -/
def recSpendDiet : TransactionRecord :=
  ⟨"2024-01-02 11:00:00", "あや", "spend", "diet", "チートデイ", 1, -50⟩

/-- Modelled from the spec (§4.2): `totalByCategory(category)` — sum of
`value` over records with matching category **and** `direction == earn`.
The source has no such function; `get_global_stats` is compared to it. -/
def totalByCategorySpec (rows : List TransactionRecord) (cat : String) : Int :=
  ((rows.filter (fun r => r.Category == cat && r.Typ == "earn")).map
    (fun r => r.Value)).sum

/-- Modelled from the spec (§4.2): `countByCategory(category)` — count of
earn records in the category. -/
def countByCategorySpec (rows : List TransactionRecord) (cat : String) : Nat :=
  (rows.filter (fun r => r.Category == cat && r.Typ == "earn")).length

/-- Modelled from the spec (§4.1/§7): `readAll` — empty sequence on a
store with no records, `StoreUnavailable` when the backing medium exists
but cannot be read. The source `load_data` is compared to it. -/
def readAllSpec : FileState → Except StoreErr (List TransactionRecord)
  | FileState.absent => Except.ok []
  | FileState.readable rows => Except.ok rows
  | FileState.unreadable => Except.error StoreErr.storeUnavailable

/-- The sign invariant on a record: earn-direction records carry
non-negative points; spend-direction records carry non-positive points,
specifically the negated cost of a catalog ticket whose name they carry. -/
def signInvariant (r : TransactionRecord) : Prop :=
  (r.Typ = "earn" → 0 ≤ r.Points)
  ∧ (r.Typ = "spend" →
      r.Points ≤ 0 ∧ ∃ t ∈ TICKETS, r.Points = -t.cost ∧ r.Item = t.name)

/-! ## Helper lemmas -/

theorem savings_points_nonneg : ∀ i : Fin 2, 0 ≤ (savings_items.get i).points := by
  decide

theorem diet_points_nonneg : ∀ i : Fin 3, 0 ≤ (diet_items.get i).points := by
  decide

theorem tickets_cost_nonneg : ∀ i : Fin 4, 0 ≤ (TICKETS.get i).cost := by
  decide

theorem load_data_readable (rows : List TransactionRecord) :
    load_data (FileState.readable rows) = rows := rfl

theorem load_data_add_entry (fs : FileState) (user type category item : String)
    (value points : Int) (ts : String) :
    load_data (add_entry fs user type category item value points ts)
      = load_data fs ++ [⟨ts, user, type, category, item, value, points⟩] := rfl

/-- The `if df.empty` branch of `get_balance` is redundant: on an empty
frame the filtered sum is 0 anyway. -/
theorem get_balance_eq_sum (fs : FileState) (u : String) :
    get_balance fs u
      = (((load_data fs).filter (fun r => r.User == u)).map (fun r => r.Points)).sum := by
  unfold get_balance
  cases load_data fs <;> simp

/-- Likewise for `get_global_stats`. -/
theorem get_global_stats_eq (fs : FileState) :
    get_global_stats fs
      = ((((load_data fs).filter (fun r => r.Category == "saving")).map
            (fun r => r.Value)).sum,
         ((load_data fs).filter (fun r => r.Category == "diet")).length) := by
  unfold get_global_stats
  cases load_data fs <;> simp

/-! ## Claims -/

/-- C1: for every record sequence and user `u`, `get_balance` returns the
sum of the Points field over exactly the records whose User equals `u`;
it returns 0 on an empty log, and 0 for a user with no records even when
the log is non-empty. -/
theorem get_balance_spec (rows : List TransactionRecord) (u : String) :
    (get_balance (FileState.readable rows) u
        = ((rows.filter (fun r => r.User == u)).map (fun r => r.Points)).sum)
    ∧ get_balance (FileState.readable []) u = 0
    ∧ ((∀ r ∈ rows, r.User ≠ u) → get_balance (FileState.readable rows) u = 0) := by
  refine ⟨get_balance_eq_sum _ u, rfl, fun h => ?_⟩
  rw [get_balance_eq_sum]
  have hf : rows.filter (fun r => r.User == u) = [] := by
    rw [List.filter_eq_nil_iff]
    intro r hr
    simpa using h r hr
  simp [load_data_readable, hf]

/-- Witness for C1: 阿部 has a record, あや does not, so あや's balance on
that non-empty log is 0. -/
theorem get_balance_spec_witness :
    get_balance (FileState.readable [recEarnA]) "あや" = 0 :=
  (get_balance_spec [recEarnA] "あや").2.2 (by decide)

/-- C5: appending a record via `add_entry` and then reading via
`load_data` yields exactly the previous sequence with the new record as
last element: all its fields are preserved verbatim, every earlier record
keeps its position, nothing is updated or deleted in place. -/
theorem add_entry_roundtrip (fs : FileState) (user type category item : String)
    (value points : Int) (ts : String) :
    load_data (add_entry fs user type category item value points ts)
      = load_data fs ++ [⟨ts, user, type, category, item, value, points⟩] := rfl

/-- C6: the purchase control for ticket `t` is disabled exactly when the
current balance is strictly below `t.cost`; equivalently it is enabled iff
`balance ≥ cost`, with the inclusive boundary `balance = cost` enabled. -/
theorem buy_disabled_iff (fs : FileState) (u : String) (t : Ticket) :
    (buy_disabled fs u t = true ↔ get_balance fs u < t.cost)
    ∧ (buy_disabled fs u t = false ↔ t.cost ≤ get_balance fs u)
    ∧ (get_balance fs u = t.cost → buy_disabled fs u t = false) := by
  refine ⟨by simp [buy_disabled], by simp [buy_disabled], fun h => ?_⟩
  simp [buy_disabled, h]

/-- Witness for C6: with exactly 300 points, the 300-point ticket's button
is enabled (inclusive boundary). -/
theorem buy_disabled_iff_witness :
    buy_disabled (FileState.readable [recEarnA300]) "阿部" ⟨"肩揉み10分券", 300⟩ = false :=
  (buy_disabled_iff (FileState.readable [recEarnA300]) "阿部" ⟨"肩揉み10分券", 300⟩).2.2
    (by decide)

/-- C8: appending a record for one user leaves every other user's balance
unchanged. -/
theorem get_balance_frame (fs : FileState) (user type category item : String)
    (value points : Int) (ts : String) (u : String) (h : u ≠ user) :
    get_balance (add_entry fs user type category item value points ts) u
      = get_balance fs u := by
  rw [get_balance_eq_sum, get_balance_eq_sum, load_data_add_entry,
    List.filter_append, List.map_append, List.sum_append]
  have hu : (user == u) = false := by simp [Ne.symm h]
  simp [List.filter, hu]

/-- Witness for C8: 阿部's append does not move あや's balance. -/
theorem get_balance_frame_witness :
    get_balance (add_entry (FileState.readable [recEarnA]) "阿部" "earn" "diet"
        "筋トレした" 1 50 "2024-01-03 08:00:00") "あや"
      = get_balance (FileState.readable [recEarnA]) "あや" :=
  get_balance_frame (FileState.readable [recEarnA]) "阿部" "earn" "diet"
    "筋トレした" 1 50 "2024-01-03 08:00:00" "あや" (by decide)

/-- C4: the redemption flow. If the balance covers the cost, exactly one
record `{spend, shop, t.name, value 1, points −t.cost}` is appended and
success is reported; if the balance is strictly below the cost the action
is rejected (`false`, the insufficient-balance caption), nothing is
appended, and the balance is unchanged. -/
theorem buy_ticket_spec (fs : FileState) (u : String) (t : Ticket) (ts : String) :
    (t.cost ≤ get_balance fs u →
      buy_ticket fs u t ts
        = (save_data (load_data fs ++ [⟨ts, u, "spend", "shop", t.name, 1, -t.cost⟩]),
           true))
    ∧ (get_balance fs u < t.cost →
      buy_ticket fs u t ts = (fs, false)
      ∧ get_balance (buy_ticket fs u t ts).1 u = get_balance fs u) := by
  constructor
  · intro h
    simp [buy_ticket, not_lt.mpr h, add_entry]
  · intro h
    simp [buy_ticket, h]

/-- Witness for C4: with 300 points the 300-point ticket is redeemed and
the spend record is appended; with 100 points it is rejected with the
ledger untouched (spec scenario: balance stays 100). -/
theorem buy_ticket_spec_witness :
    (buy_ticket (FileState.readable [recEarnA300]) "阿部" ⟨"肩揉み10分券", 300⟩
        "2024-01-04 12:00:00"
      = (save_data ([recEarnA300] ++
          [⟨"2024-01-04 12:00:00", "阿部", "spend", "shop", "肩揉み10分券", 1, -300⟩]),
         true))
    ∧ (buy_ticket (FileState.readable [recEarnA]) "阿部" ⟨"肩揉み10分券", 300⟩
        "2024-01-04 12:00:00" = (FileState.readable [recEarnA], false)
      ∧ get_balance (buy_ticket (FileState.readable [recEarnA]) "阿部"
          ⟨"肩揉み10分券", 300⟩ "2024-01-04 12:00:00").1 "阿部"
        = get_balance (FileState.readable [recEarnA]) "阿部") :=
  ⟨(buy_ticket_spec (FileState.readable [recEarnA300]) "阿部" ⟨"肩揉み10分券", 300⟩
      "2024-01-04 12:00:00").1 (by decide),
   (buy_ticket_spec (FileState.readable [recEarnA]) "阿部" ⟨"肩揉み10分券", 300⟩
      "2024-01-04 12:00:00").2 (by decide)⟩

/-- C9: malformed custom input is rejected before any append: a custom
diet submission with an empty description, a custom diet submission whose
points are below 1, and a custom deposit whose amount is below 1 all
leave the file state (hence the ledger) completely unchanged. -/
theorem custom_input_validation (u : String) (fs : FileState) (desc : String)
    (pt amount : Int) (ts : String) :
    (desc = "" → step u fs (UIAction.customDiet desc pt ts) = fs)
    ∧ (pt < 1 → step u fs (UIAction.customDiet desc pt ts) = fs)
    ∧ (amount < 1 → step u fs (UIAction.customDeposit amount ts) = fs) := by
  refine ⟨fun h => ?_, fun h => ?_, fun h => ?_⟩
  · simp [step, h]
  · simp [step, not_le.mpr h]
  · simp [step, not_le.mpr h]

/-- Witness for C9: an empty description, zero points, and a zero deposit
each leave an example state untouched. -/
theorem custom_input_validation_witness :
    (step "阿部" (FileState.readable [recEarnA])
        (UIAction.customDiet "" 50 "2024-01-05 09:00:00")
      = FileState.readable [recEarnA])
    ∧ (step "阿部" (FileState.readable [recEarnA])
        (UIAction.customDiet "散歩" 0 "2024-01-05 09:00:00")
      = FileState.readable [recEarnA])
    ∧ (step "阿部" (FileState.readable [recEarnA])
        (UIAction.customDeposit 0 "2024-01-05 09:00:00")
      = FileState.readable [recEarnA]) :=
  ⟨(custom_input_validation "阿部" (FileState.readable [recEarnA]) "" 50 0
      "2024-01-05 09:00:00").1 rfl,
   (custom_input_validation "阿部" (FileState.readable [recEarnA]) "散歩" 0 0
      "2024-01-05 09:00:00").2.1 (by decide),
   (custom_input_validation "阿部" (FileState.readable [recEarnA]) "散歩" 50 0
      "2024-01-05 09:00:00").2.2 (by decide)⟩

/-- C10: a fixed saving-menu press appends a record whose Value equals its
Points (the point score doubles as the yen magnitude), in category
"saving", and therefore raises the total-savings aggregate by exactly the
item's point score. -/
theorem fixed_saving_value_eq_points (u : String) (fs : FileState) (i : Fin 2)
    (ts : String) :
    (∃ r : TransactionRecord,
      load_data (step u fs (UIAction.fixedSaving i ts)) = load_data fs ++ [r]
      ∧ r.Value = r.Points
      ∧ r.Points = (savings_items.get i).points
      ∧ r.Category = "saving")
    ∧ (get_global_stats (step u fs (UIAction.fixedSaving i ts))).1
        = (get_global_stats fs).1 + (savings_items.get i).points := by
  constructor
  · exact ⟨⟨ts, u, "earn", "saving", (savings_items.get i).name,
      (savings_items.get i).points, (savings_items.get i).points⟩,
      rfl, rfl, rfl, rfl⟩
  · simp only [get_global_stats_eq, step, load_data_add_entry, List.filter_append,
      List.map_append, List.sum_append]
    simp [List.filter]

/-- C2 counterexample: `get_global_stats` filters only on Category, never
on direction, so a spend-direction record in category "saving" is counted
into total savings (500 here) where the claimed earn-only aggregate gives
0, and a spend-direction record in category "diet" is counted into the
diet count (1 here) where the claimed earn-only count gives 0. -/
theorem global_stats_count_spend_records :
    (get_global_stats (FileState.readable [recSpendSaving, recSpendDiet])).1 = 500
    ∧ totalByCategorySpec [recSpendSaving, recSpendDiet] "saving" = 0
    ∧ (get_global_stats (FileState.readable [recSpendSaving, recSpendDiet])).2 = 1
    ∧ countByCategorySpec [recSpendSaving, recSpendDiet] "diet" = 0 := by
  decide

/-- C2 amended: the total-savings aggregate sums Value over all records
with Category "saving" and the diet count counts all records with
Category "diet", with **no** restriction to earn direction; on sequences
in which every saving- or diet-category record has direction earn (which
includes every ledger the app itself produces, since its only spend
append uses category "shop"), this coincides with the claimed earn-only
aggregates. -/
theorem global_stats_spec (rows : List TransactionRecord) :
    get_global_stats (FileState.readable rows)
      = (((rows.filter (fun r => r.Category == "saving")).map (fun r => r.Value)).sum,
         (rows.filter (fun r => r.Category == "diet")).length)
    ∧ ((∀ r ∈ rows, (r.Category = "saving" ∨ r.Category = "diet") → r.Typ = "earn") →
        (get_global_stats (FileState.readable rows)).1
            = totalByCategorySpec rows "saving"
        ∧ (get_global_stats (FileState.readable rows)).2
            = countByCategorySpec rows "diet") := by
  have hfil : ∀ cat : String,
      (∀ r ∈ rows, (r.Category = "saving" ∨ r.Category = "diet") → r.Typ = "earn") →
      (cat = "saving" ∨ cat = "diet") →
      rows.filter (fun r => r.Category == cat)
        = rows.filter (fun r => r.Category == cat && r.Typ == "earn") := by
    intro cat h hcat
    apply List.filter_congr
    intro r hr
    by_cases hc : r.Category = cat
    · have ht : r.Typ = "earn" := h r hr (by cases hcat <;> simp_all)
      simp [hc, ht]
    · simp [beq_iff_eq, hc]
  refine ⟨get_global_stats_eq _, fun h => ?_⟩
  rw [get_global_stats_eq]
  simp only [load_data_readable]
  constructor
  · rw [totalByCategorySpec, hfil "saving" h (Or.inl rfl)]
  · rw [countByCategorySpec, hfil "diet" h (Or.inr rfl)]

/-- Witness for C2 amended: on an all-earn log the code's aggregates
agree with the spec's earn-only aggregates. -/
theorem global_stats_spec_witness :
    (get_global_stats (FileState.readable [recEarnA])).1
        = totalByCategorySpec [recEarnA] "saving"
    ∧ (get_global_stats (FileState.readable [recEarnA])).2
        = countByCategorySpec [recEarnA] "diet" :=
  (global_stats_spec [recEarnA]).2 (by decide)

/-- C3 counterexample: on a present-but-unreadable backing file,
`pd.read_csv` raises, but `load_data` catches the exception and silently
returns an empty frame — it does not surface `StoreUnavailable` as the
claim (and `readAllSpec`) require. -/
theorem load_data_swallows_read_error :
    read_csv FileState.unreadable = Except.error StoreErr.storeUnavailable
    ∧ load_data FileState.unreadable = []
    ∧ Except.ok (load_data FileState.unreadable) ≠ readAllSpec FileState.unreadable :=
  ⟨rfl, rfl, fun h => Except.noConfusion h⟩

/-- C3 amended: `load_data` returns an empty sequence on a store with no
records, and **also** an empty sequence — silent recovery, no error
surfaced to the session — when the backing medium exists but cannot be
read; on a readable store it returns the stored rows. It never fails. -/
theorem load_data_never_fails :
    load_data FileState.absent = []
    ∧ load_data FileState.unreadable = []
    ∧ ∀ rows, load_data (FileState.readable rows) = rows :=
  ⟨rfl, rfl, fun _ => rfl⟩

/-- Each UI step preserves the sign invariant of every stored record. -/
theorem step_preserves_signInvariant (u : String) (fs : FileState) (a : UIAction)
    (h : ∀ r ∈ load_data fs, signInvariant r) :
    ∀ r ∈ load_data (step u fs a), signInvariant r := by
  cases a with
  | fixedSaving i ts =>
    intro r hr
    simp only [step, load_data_add_entry] at hr
    rcases List.mem_append.mp hr with h1 | h2
    · exact h r h1
    · rw [List.mem_singleton.mp h2]
      exact ⟨fun _ => savings_points_nonneg i,
        fun hsp => absurd (show ("earn" : String) = "spend" from hsp) (by decide)⟩
  | customDeposit amount ts =>
    intro r hr
    simp only [step] at hr
    split at hr
    · rename_i ha
      rw [load_data_add_entry] at hr
      rcases List.mem_append.mp hr with h1 | h2
      · exact h r h1
      · rw [List.mem_singleton.mp h2]
        exact ⟨fun _ => le_trans zero_le_one ha,
          fun hsp => absurd (show ("earn" : String) = "spend" from hsp) (by decide)⟩
    · exact h r hr
  | fixedDiet i ts =>
    intro r hr
    simp only [step, load_data_add_entry] at hr
    rcases List.mem_append.mp hr with h1 | h2
    · exact h r h1
    · rw [List.mem_singleton.mp h2]
      exact ⟨fun _ => diet_points_nonneg i,
        fun hsp => absurd (show ("earn" : String) = "spend" from hsp) (by decide)⟩
  | customDiet desc pt ts =>
    intro r hr
    simp only [step] at hr
    split at hr
    · rename_i hv
      rw [load_data_add_entry] at hr
      rcases List.mem_append.mp hr with h1 | h2
      · exact h r h1
      · rw [List.mem_singleton.mp h2]
        exact ⟨fun _ => le_trans zero_le_one hv.2,
          fun hsp => absurd (show ("earn" : String) = "spend" from hsp) (by decide)⟩
    · exact h r hr
  | buyTicket i ts =>
    intro r hr
    simp only [step, buy_ticket] at hr
    split at hr
    · exact h r hr
    · rw [load_data_add_entry] at hr
      rcases List.mem_append.mp hr with h1 | h2
      · exact h r h1
      · rw [List.mem_singleton.mp h2]
        refine ⟨fun hsp =>
          absurd (show ("spend" : String) = "earn" from hsp) (by decide),
          fun _ => ?_⟩
        exact ⟨neg_nonpos.mpr (tickets_cost_nonneg i),
          TICKETS.get i, List.get_mem TICKETS i.1 i.2, rfl, rfl⟩

/-- C7: every record of every ledger state the app can reach from a fresh
store (any interleaving of the two users' UI actions) satisfies the sign
invariant: earn records have non-negative points, spend records have
non-positive points equal to minus the cost of a catalog ticket. -/
theorem run_signInvariant (acts : List (String × UIAction)) :
    ∀ r ∈ load_data (run acts FileState.absent), signInvariant r := by
  suffices hgen : ∀ (l : List (String × UIAction)) (fs : FileState),
      (∀ r ∈ load_data fs, signInvariant r) →
      ∀ r ∈ load_data (run l fs), signInvariant r by
    exact hgen acts FileState.absent (by simp [load_data])
  intro l
  induction l with
  | nil => exact fun fs h => h
  | cons p rest ih =>
    intro fs h
    obtain ⟨pu, pa⟩ := p
    exact ih (step pu fs pa) (step_preserves_signInvariant pu fs pa h)

/-- Witness for C7: the record produced by one つもり貯金 press satisfies
the sign invariant. -/
theorem run_signInvariant_witness :
    signInvariant ⟨"2024-01-06 07:00:00", "阿部", "earn", "saving", "つもり貯金", 100, 100⟩ :=
  run_signInvariant [("阿部", UIAction.fixedSaving 0 "2024-01-06 07:00:00")] _
    (by decide)

end LoveFutureBank
